import Mathlib

/-!
Shallow embedding of the users and books components of the backend template
(src/api/components/users/users-controller.js,
src/api/components/books/books-controller.js,
src/api/components/books/books-repository.js, books-service.js).

Request-body fields are `Option String` (undefined vs a string); JS truthiness
of such a field is `truthy`.  Errors passed to `next` via `errorResponder`
carry an error kind and an optional message; unclassified runtime errors
(a thrown TypeError, a storage failure from a service call) are `JsErr.raw`.
A handler finishes either with an HTTP response, or by calling `next` with an
error, or — when an awaited promise rejects outside any try/catch — by
rejecting without calling `next` (`CtrlResult.rejected`).

The users service and repository, the credential hasher and the error-kind
table are not among the given sources; where they are needed they are
modelled from the spec, and marked so.
-/

/-- JS truthiness of an optional string field: undefined and the empty string
are falsy, any other string is truthy. -/
def truthy : Option String → Bool
  | none => false
  | some s => !(s == "")

/-- Embedding of the JS idiom `parseInt(x, 10) || d`: an absent or
non-numeric value (parseInt gives NaN, falsy) and the number 0 (falsy)
both fall back to the default. -/
def jsOr (v : Option Int) (d : Int) : Int :=
  match v with
  | none => d
  | some n => if n == 0 then d else n

/-- Modelled from the spec: the error kinds of core/errors.js (not under the
given sources) that the controllers use; a closed tagged-variant type. -/
inductive ErrorKind where
  | VALIDATION_ERROR
  | EMAIL_ALREADY_TAKEN
  | UNPROCESSABLE_ENTITY
  | NOT_IMPLEMENTED
deriving DecidableEq, Repr

/-- An error value flowing through a handler: either a classified error built
by `errorResponder(kind, message)` (the message argument may be omitted, as in
`changePassword`), or an unclassified runtime error (TypeError, storage
failure) identified by a tag and passed through unchanged. -/
inductive JsErr where
  | responder (kind : ErrorKind) (message : Option String)
  | raw (tag : String)
deriving DecidableEq, Repr

/-- A stored user record, as read and written by the users controller
(`user.email`, `user.password` are the fields the controller touches). -/
structure UserRecord where
  id : String
  email : String
  password : String
  full_name : String
deriving DecidableEq, Repr

/-- A stored book record. -/
structure Book where
  id : String
  title : String
deriving DecidableEq, Repr

/-- The JSON payload of a successful response: a message object, a record or
a list of records. -/
inductive ResBody where
  | message (m : String)
  | user (u : UserRecord)
  | userList (us : List UserRecord)
  | book (b : Book)
  | bookList (bs : List Book)
deriving DecidableEq, Repr

/-- The observable outcome of one handler invocation:
`response status body` for `response.status(s).json(b)`;
`nextCalled e` when the handler hands an error to `next`;
`rejected e` when an awaited call rejects outside any try/catch, so the
async handler itself rejects without `next` being called. -/
inductive CtrlResult where
  | response (status : Nat) (body : ResBody)
  | nextCalled (e : JsErr)
  | rejected (e : JsErr)
deriving DecidableEq, Repr

/-- The users service seen from the controller: each operation takes and
returns the storage state explicitly, and either yields a value or an
unclassified error (a storage failure).  The controllers are written against
this interface; a concrete instance is `storeSvc` below. -/
structure Svc (σ : Type) where
  getUsers : σ → Int → Int → Except JsErr (List UserRecord) × σ
  getUser : σ → String → Except JsErr (Option UserRecord) × σ
  getUserByEmail : σ → String → Except JsErr (Option UserRecord) × σ
  emailExists : σ → String → Except JsErr Bool × σ
  createUser : σ → String → String → String → Except JsErr Bool × σ
  updateUser : σ → String → String → String → Except JsErr Bool × σ
  deleteUser : σ → String → Except JsErr Bool × σ

/-- Modelled from the spec: the credential hasher of utils/password.js (not
under the given sources) wraps a salted one-way hash with a verification
function; verification succeeds exactly on the original password.  Salting is
elided, so the model is a deterministic tagging function. -/
def hashPassword (p : String) : String := "$hashed$" ++ p

/-- Modelled from the spec: verification of a plaintext password against a
stored hash; true exactly when the hash is the hash of that password. -/
def passwordMatched (p h : String) : Bool := h == hashPassword p

/-- Equality of service answers is decidable, so concrete runs can be checked
by evaluation. -/
instance {ε α : Type} [DecidableEq ε] [DecidableEq α] : DecidableEq (Except ε α) :=
  fun a b =>
    match a, b with
    | .ok x, .ok y =>
        decidable_of_iff (x = y) (by constructor <;> (intro h ; simp_all))
    | .error x, .error y =>
        decidable_of_iff (x = y) (by constructor <;> (intro h ; simp_all))
    | .ok _, .error _ => isFalse (by simp)
    | .error _, .ok _ => isFalse (by simp)

/-- The body of a POST /users registration request, each field possibly
absent. -/
structure CreateBody where
  email : Option String
  password : Option String
  full_name : Option String
  confirm_password : Option String
deriving DecidableEq, Repr

/-- The body of a PUT /users/:id update request. -/
structure UpdateBody where
  email : Option String
  full_name : Option String
deriving DecidableEq, Repr

/-- The body of a POST /users/login request. -/
structure LoginBody where
  email : Option String
  password : Option String
deriving DecidableEq, Repr

namespace UsersController

/-- users-controller.js getUsers: parse offset (default 0) and limit
(default 10) from the query, list users, 200; any error from the service is
caught and passed to next. -/
def getUsers {σ : Type} (svc : Svc σ) (s : σ) (offsetQ limitQ : Option Int) :
    CtrlResult × σ :=
  let offset := jsOr offsetQ 0
  let limit := jsOr limitQ 10
  match svc.getUsers s offset limit with
  | (.error e, s1) => (.nextCalled e, s1)
  | (.ok users, s1) => (.response 200 (.userList users), s1)

/-- users-controller.js getUser: look up by id; absent yields
UNPROCESSABLE_ENTITY "User not found"; errors are caught and passed to
next. -/
def getUser {σ : Type} (svc : Svc σ) (s : σ) (id : String) : CtrlResult × σ :=
  match svc.getUser s id with
  | (.error e, s1) => (.nextCalled e, s1)
  | (.ok none, s1) =>
      (.nextCalled (.responder .UNPROCESSABLE_ENTITY (some "User not found")), s1)
  | (.ok (some user), s1) => (.response 200 (.user user), s1)

/-- users-controller.js createUser: the checks in source order — email
truthy, full name truthy, email not already registered, password length at
least 8, password equals confirm_password — then hash and persist, 201 on
success.  Every throw inside the try block, including the TypeError raised by
`password.length` when the password field is absent and any service error,
is caught and passed to next. -/
def createUser {σ : Type} (svc : Svc σ) (s : σ) (r : CreateBody) :
    CtrlResult × σ :=
  if !(truthy r.email) then
    (.nextCalled (.responder .VALIDATION_ERROR (some "Email is required")), s)
  else if !(truthy r.full_name) then
    (.nextCalled (.responder .VALIDATION_ERROR (some "Full name is required")), s)
  else
    match svc.emailExists s (r.email.getD "") with
    | (.error e, s1) => (.nextCalled e, s1)
    | (.ok true, s1) =>
        (.nextCalled (.responder .EMAIL_ALREADY_TAKEN (some "Email already exists")), s1)
    | (.ok false, s1) =>
        match r.password with
        | none => (.nextCalled (.raw "TypeError"), s1)
        | some password =>
            if password.length < 8 then
              (.nextCalled (.responder .VALIDATION_ERROR
                (some "Password must be at least 8 characters long")), s1)
            else if some password ≠ r.confirm_password then
              (.nextCalled (.responder .VALIDATION_ERROR
                (some "Password and confirm password do not match")), s1)
            else
              let hashedPassword := hashPassword password
              match svc.createUser s1 (r.email.getD "") hashedPassword
                  (r.full_name.getD "") with
              | (.error e, s2) => (.nextCalled e, s2)
              | (.ok false, s2) =>
                  (.nextCalled (.responder .UNPROCESSABLE_ENTITY
                    (some "Failed to create user")), s2)
              | (.ok true, s2) =>
                  (.response 201 (.message "User created successfully"), s2)

/-- The tail of users-controller.js updateUser shared by both branches of the
uniqueness test: persist via the service and shape the outcome. -/
def updateUserPersist {σ : Type} (svc : Svc σ) (s : σ)
    (id email fullName : String) : CtrlResult × σ :=
  match svc.updateUser s id email fullName with
  | (.error e, s1) => (.nextCalled e, s1)
  | (.ok false, s1) =>
      (.nextCalled (.responder .UNPROCESSABLE_ENTITY
        (some "Failed to update user")), s1)
  | (.ok true, s1) => (.response 200 (.message "User updated successfully"), s1)

/-- users-controller.js updateUser: look up the user by id, require email and
full name truthy, and only when the new email differs from the stored one
consult the uniqueness check (JS short-circuit of the conjunction); then
persist id, email and full name.  Errors are caught and passed to next. -/
def updateUser {σ : Type} (svc : Svc σ) (s : σ) (id : String) (r : UpdateBody) :
    CtrlResult × σ :=
  match svc.getUser s id with
  | (.error e, s1) => (.nextCalled e, s1)
  | (.ok none, s1) =>
      (.nextCalled (.responder .UNPROCESSABLE_ENTITY (some "User not found")), s1)
  | (.ok (some user), s1) =>
      if !(truthy r.email) then
        (.nextCalled (.responder .VALIDATION_ERROR (some "Email is required")), s1)
      else if !(truthy r.full_name) then
        (.nextCalled (.responder .VALIDATION_ERROR (some "Full name is required")), s1)
      else if r.email.getD "" ≠ user.email then
        match svc.emailExists s1 (r.email.getD "") with
        | (.error e, s2) => (.nextCalled e, s2)
        | (.ok true, s2) =>
            (.nextCalled (.responder .EMAIL_ALREADY_TAKEN
              (some "Email already exists")), s2)
        | (.ok false, s2) =>
            updateUserPersist svc s2 id (r.email.getD "") (r.full_name.getD "")
      else
        updateUserPersist svc s1 id (r.email.getD "") (r.full_name.getD "")

/-- users-controller.js loginUser: require email and password together (one
check); look up by email; verify the password against the stored hash; the
absent-user case and the mismatch case build the same error.  This handler
has no try/catch, so a service error is not passed to next: the async
function rejects. -/
def loginUser {σ : Type} (svc : Svc σ) (s : σ) (r : LoginBody) :
    CtrlResult × σ :=
  if !(truthy r.email) || !(truthy r.password) then
    (.nextCalled (.responder .VALIDATION_ERROR
      (some "Email and password are required")), s)
  else
    match svc.getUserByEmail s (r.email.getD "") with
    | (.error e, s1) => (.rejected e, s1)
    | (.ok none, s1) =>
        (.nextCalled (.responder .UNPROCESSABLE_ENTITY
          (some "Invalid email or password")), s1)
    | (.ok (some user), s1) =>
        let passwordIsValid := passwordMatched (r.password.getD "") user.password
        if !passwordIsValid then
          (.nextCalled (.responder .UNPROCESSABLE_ENTITY
            (some "Invalid email or password")), s1)
        else
          (.response 200 (.message "Login successful"), s1)

/-- users-controller.js changePassword: unimplemented; every call passes
errorResponder(NOT_IMPLEMENTED) — with no message argument — to next. -/
def changePassword {σ : Type} (svc : Svc σ) (s : σ) (id : String)
    (body : List (String × String)) : CtrlResult × σ :=
  (.nextCalled (.responder .NOT_IMPLEMENTED none), s)

/-- users-controller.js deleteUser: delegate to the service; a false success
flag yields UNPROCESSABLE_ENTITY; errors are caught and passed to next. -/
def deleteUser {σ : Type} (svc : Svc σ) (s : σ) (id : String) : CtrlResult × σ :=
  match svc.deleteUser s id with
  | (.error e, s1) => (.nextCalled e, s1)
  | (.ok false, s1) =>
      (.nextCalled (.responder .UNPROCESSABLE_ENTITY
        (some "Failed to delete user")), s1)
  | (.ok true, s1) => (.response 200 (.message "User deleted successfully"), s1)

end UsersController

namespace BooksRepository

/-- The document-store limit operator: a limit of 0 means no limit, any
positive limit truncates. -/
def mongoLimit (l : Nat) (xs : List Book) : List Book :=
  if l == 0 then xs else xs.take l

/-- books-repository.js getBooks: `Books.find({}).skip(offset).limit(limit)`;
skip drops a prefix in storage order, limit truncates. -/
def getBooks (books : List Book) (offset limit : Nat) : List Book :=
  mongoLimit limit (books.drop offset)

end BooksRepository

namespace BooksService

/-- books-service.js getBooks: direct delegation to the repository. -/
def getBooks (books : List Book) (offset limit : Nat) : List Book :=
  BooksRepository.getBooks books offset limit

end BooksService

/-- Fresh id for a created user in the concrete store model. -/
def freshUserId (db : List UserRecord) : String := "user-" ++ toString db.length

/-- Modelled from the spec: the users service and repository
(users-service.js, users-repository.js are not among the given sources) over
a concrete store, a list of user records in insertion order.  emailExists is
true iff getUserByEmail finds a record; create appends a record built from
email, the hashed password and the full name; update rewrites email and full
name of the matching id; delete removes the matching id; the success flag is
false when the id matches nothing.  Storage never fails in this model. -/
def storeSvc : Svc (List UserRecord) where
  getUsers db offset limit :=
    (.ok (((db.drop offset.toNat).take limit.toNat)), db)
  getUser db id := (.ok (db.find? (fun u => u.id == id)), db)
  getUserByEmail db e := (.ok (db.find? (fun u => u.email == e)), db)
  emailExists db e := (.ok (db.find? (fun u => u.email == e)).isSome, db)
  createUser db e hp fn := (.ok true, db ++ [⟨freshUserId db, e, hp, fn⟩])
  updateUser db id e fn :=
    if (db.find? (fun u => u.id == id)).isSome then
      (.ok true, db.map (fun u =>
        if u.id == id then { u with email := e, full_name := fn } else u))
    else (.ok false, db)
  deleteUser db id :=
    if (db.find? (fun u => u.id == id)).isSome then
      (.ok true, db.filter (fun u => !(u.id == id)))
    else (.ok false, db)

/-- A service over a trivial state whose lookup by email fails with a storage
error; used to exercise error propagation in the login path. -/
def errSvc : Svc Unit where
  getUsers s _ _ := (.error (.raw "StorageFailure"), s)
  getUser s _ := (.error (.raw "StorageFailure"), s)
  getUserByEmail s _ := (.error (.raw "StorageFailure"), s)
  emailExists s _ := (.error (.raw "StorageFailure"), s)
  createUser s _ _ _ := (.error (.raw "StorageFailure"), s)
  updateUser s _ _ _ := (.error (.raw "StorageFailure"), s)
  deleteUser s _ := (.error (.raw "StorageFailure"), s)

/-- Sample store contents for concrete evaluations. -/
def sampleUser : UserRecord :=
  ⟨"user-0", "a@b.c", hashPassword "password1", "Alice"⟩

/-- A second sample user owning a different email. -/
def sampleUser2 : UserRecord :=
  ⟨"user-1", "b@c.d", hashPassword "password2", "Bob"⟩

/-- A small concrete book collection. -/
def sampleBooks : List Book := [⟨"b1", "Dune"⟩, ⟨"b2", "Emma"⟩]

/-- C6: changePassword passes a NOT_IMPLEMENTED error to next for every
service, state, path parameter and body, leaving the state untouched; no
other outcome is possible. -/
theorem C6_changePassword_not_implemented {σ : Type} (svc : Svc σ) (s : σ)
    (id : String) (body : List (String × String)) :
    UsersController.changePassword svc s id body
      = (.nextCalled (.responder .NOT_IMPLEMENTED none), s) := rfl

/-- C8: getBooks with offset 0 and limit 10 returns at most 10 books, namely
the first ones in storage order; and for every offset at least the collection
size, getBooks returns the empty list (an empty sequence, not an error). -/
theorem C8_getBooks_pagination (books : List Book) :
    (BooksRepository.getBooks books 0 10).length ≤ 10
    ∧ BooksRepository.getBooks books 0 10 = books.take 10
    ∧ ∀ offset limit, books.length ≤ offset →
        BooksRepository.getBooks books offset limit = [] := by
  refine ⟨?_, ?_, ?_⟩
  · simp [BooksRepository.getBooks, BooksRepository.mongoLimit]
  · simp [BooksRepository.getBooks, BooksRepository.mongoLimit]
  · intro offset limit h
    have hd : books.drop offset = [] := List.drop_eq_nil_of_le h
    simp [BooksRepository.getBooks, BooksRepository.mongoLimit, hd]

/-- Witness for C8 at a concrete collection of two books: limit 10 from
offset 0 gives at most 10 books, and offset 3, beyond the size 2, gives the
empty list. -/
theorem C8_getBooks_pagination_witness :
    (BooksRepository.getBooks sampleBooks 0 10).length ≤ 10
    ∧ sampleBooks.length ≤ 3
    ∧ BooksRepository.getBooks sampleBooks 3 7 = [] :=
  ⟨(C8_getBooks_pagination sampleBooks).1, by decide,
    (C8_getBooks_pagination sampleBooks).2.2 3 7 (by decide)⟩

/-- C1: createUser runs its checks in source order — email present, full
name present, email not already registered, password length at least 8,
password equals confirm_password, then hash-and-persist — and only the first
failing check is reported; in particular an already-registered email yields
EMAIL_ALREADY_TAKEN for every password and confirm_password field, and the
success path persists exactly the hashed password. -/
theorem C1_createUser_check_order {σ : Type} (svc : Svc σ) (s : σ)
    (r : CreateBody) :
    (truthy r.email = false →
      (UsersController.createUser svc s r).1
        = .nextCalled (.responder .VALIDATION_ERROR (some "Email is required")))
    ∧ (truthy r.email = true → truthy r.full_name = false →
      (UsersController.createUser svc s r).1
        = .nextCalled (.responder .VALIDATION_ERROR (some "Full name is required")))
    ∧ (∀ s1, truthy r.email = true → truthy r.full_name = true →
      svc.emailExists s (r.email.getD "") = (.ok true, s1) →
      (UsersController.createUser svc s r).1
        = .nextCalled (.responder .EMAIL_ALREADY_TAKEN (some "Email already exists")))
    ∧ (∀ s1 p, truthy r.email = true → truthy r.full_name = true →
      svc.emailExists s (r.email.getD "") = (.ok false, s1) →
      r.password = some p → p.length < 8 →
      (UsersController.createUser svc s r).1
        = .nextCalled (.responder .VALIDATION_ERROR
            (some "Password must be at least 8 characters long")))
    ∧ (∀ s1 p, truthy r.email = true → truthy r.full_name = true →
      svc.emailExists s (r.email.getD "") = (.ok false, s1) →
      r.password = some p → ¬ p.length < 8 → some p ≠ r.confirm_password →
      (UsersController.createUser svc s r).1
        = .nextCalled (.responder .VALIDATION_ERROR
            (some "Password and confirm password do not match")))
    ∧ (∀ s1 s2 p, truthy r.email = true → truthy r.full_name = true →
      svc.emailExists s (r.email.getD "") = (.ok false, s1) →
      r.password = some p → ¬ p.length < 8 → r.confirm_password = some p →
      svc.createUser s1 (r.email.getD "") (hashPassword p) (r.full_name.getD "")
        = (.ok true, s2) →
      UsersController.createUser svc s r
        = (.response 201 (.message "User created successfully"), s2)) := by
  refine ⟨?_, ?_, ?_, ?_, ?_, ?_⟩
  · intro hE
    simp [UsersController.createUser, hE]
  · intro hE hF
    simp [UsersController.createUser, hE, hF]
  · intro s1 hE hF hEx
    simp [UsersController.createUser, hE, hF, hEx]
  · intro s1 p hE hF hEx hP hlen
    simp [UsersController.createUser, hE, hF, hEx, hP, hlen]
  · intro s1 p hE hF hEx hP hlen hne
    simp [UsersController.createUser, hE, hF, hEx, hP, hlen, hne]
  · intro s1 s2 p hE hF hEx hP hlen hconf hpersist
    simp [UsersController.createUser, hE, hF, hEx, hP, hlen, hconf, hpersist]

/-- Witness for C1 at a concrete input: with a store already containing the
sample user, a registration reusing that email and carrying an invalid
password fails with EMAIL_ALREADY_TAKEN, the error of the first failing
check. -/
theorem C1_createUser_check_order_witness :
    truthy (some "a@b.c") = true ∧ truthy (some "Mallory") = true
    ∧ storeSvc.emailExists [sampleUser] "a@b.c" = (.ok true, [sampleUser])
    ∧ (UsersController.createUser storeSvc [sampleUser]
        ⟨some "a@b.c", some "x", some "Mallory", some "y"⟩).1
      = .nextCalled (.responder .EMAIL_ALREADY_TAKEN (some "Email already exists")) :=
  ⟨by decide, by decide, by decide,
    (C1_createUser_check_order storeSvc [sampleUser]
        ⟨some "a@b.c", some "x", some "Mallory", some "y"⟩).2.2.1
      [sampleUser] (by decide) (by decide) (by decide)⟩

/-- C4: a registration that passes the email-presence, name-presence and
email-uniqueness checks but carries a password shorter than 8 characters is
rejected with VALIDATION_ERROR, even when the confirmation matches the
password. -/
theorem C4_short_password_validation_error {σ : Type} (svc : Svc σ) (s : σ)
    (r : CreateBody) (s1 : σ) (p : String)
    (hE : truthy r.email = true) (hF : truthy r.full_name = true)
    (hEx : svc.emailExists s (r.email.getD "") = (.ok false, s1))
    (hP : r.password = some p) (hC : r.confirm_password = some p)
    (hlen : p.length < 8) :
    (UsersController.createUser svc s r).1
      = .nextCalled (.responder .VALIDATION_ERROR
          (some "Password must be at least 8 characters long")) := by
  simp [UsersController.createUser, hE, hF, hEx, hP, hlen]

/-- Witness for C4 at a concrete input: registering with the 5-character
password "short" and a matching confirmation, against an empty store, fails
with the password-length VALIDATION_ERROR. -/
theorem C4_short_password_validation_error_witness :
    truthy (some "a@b.c") = true ∧ "short".length < 8
    ∧ (UsersController.createUser storeSvc []
        ⟨some "a@b.c", some "short", some "Alice", some "short"⟩).1
      = .nextCalled (.responder .VALIDATION_ERROR
          (some "Password must be at least 8 characters long")) :=
  ⟨by decide, by decide,
    C4_short_password_validation_error storeSvc []
      ⟨some "a@b.c", some "short", some "Alice", some "short"⟩ [] "short"
      (by decide) (by decide) (by decide) rfl rfl (by decide)⟩

/-- C10: when email and full name are truthy and the email is not already
registered but the password field is absent, createUser evaluates
`password.length` on undefined: the resulting TypeError is caught and
forwarded to next as an unclassified error, never as an errorResponder
error — in particular not as a VALIDATION_ERROR; when the password is a
string, the same check reports the VALIDATION_ERROR. -/
theorem C10_absent_password_type_error {σ : Type} (svc : Svc σ) (s : σ)
    (r : CreateBody) :
    (∀ s1, truthy r.email = true → truthy r.full_name = true →
      svc.emailExists s (r.email.getD "") = (.ok false, s1) →
      r.password = none →
      (UsersController.createUser svc s r).1 = .nextCalled (.raw "TypeError")
      ∧ ∀ k m, (UsersController.createUser svc s r).1
          ≠ .nextCalled (.responder k m))
    ∧ (∀ s1 p, truthy r.email = true → truthy r.full_name = true →
      svc.emailExists s (r.email.getD "") = (.ok false, s1) →
      r.password = some p → p.length < 8 →
      (UsersController.createUser svc s r).1
        = .nextCalled (.responder .VALIDATION_ERROR
            (some "Password must be at least 8 characters long"))) := by
  constructor
  · intro s1 hE hF hEx hP
    have hres : (UsersController.createUser svc s r).1
        = .nextCalled (.raw "TypeError") := by
      simp [UsersController.createUser, hE, hF, hEx, hP]
    exact ⟨hres, fun k m => by simp [hres]⟩
  · intro s1 p hE hF hEx hP hlen
    simp [UsersController.createUser, hE, hF, hEx, hP, hlen]

/-- Witness for C10 at a concrete input: a registration with truthy email
and name against an empty store but no password field ends with the raw
TypeError handed to next. -/
theorem C10_absent_password_type_error_witness :
    truthy (some "a@b.c") = true
    ∧ (UsersController.createUser storeSvc []
        ⟨some "a@b.c", none, some "Alice", none⟩).1
      = .nextCalled (.raw "TypeError") :=
  ⟨by decide,
    ((C10_absent_password_type_error storeSvc []
        ⟨some "a@b.c", none, some "Alice", none⟩).1 []
      (by decide) (by decide) rfl rfl).1⟩

/-- C2: with email and password both present, a login whose email matches no
stored user and a login whose email matches a user but whose password fails
hash verification produce the identical outcome — the same
UNPROCESSABLE_ENTITY kind and the same message "Invalid email or password" —
so the two failure causes are indistinguishable to the caller. -/
theorem C2_login_failures_indistinguishable {σ τ : Type}
    (svc : Svc σ) (s : σ) (r : LoginBody)
    (svc2 : Svc τ) (t : τ) (r2 : LoginBody) :
    (∀ s1, truthy r.email = true → truthy r.password = true →
      svc.getUserByEmail s (r.email.getD "") = (.ok none, s1) →
      (UsersController.loginUser svc s r).1
        = .nextCalled (.responder .UNPROCESSABLE_ENTITY
            (some "Invalid email or password")))
    ∧ (∀ s1 u, truthy r.email = true → truthy r.password = true →
      svc.getUserByEmail s (r.email.getD "") = (.ok (some u), s1) →
      passwordMatched (r.password.getD "") u.password = false →
      (UsersController.loginUser svc s r).1
        = .nextCalled (.responder .UNPROCESSABLE_ENTITY
            (some "Invalid email or password")))
    ∧ (∀ s1 t1 u, truthy r.email = true → truthy r.password = true →
      truthy r2.email = true → truthy r2.password = true →
      svc.getUserByEmail s (r.email.getD "") = (.ok none, s1) →
      svc2.getUserByEmail t (r2.email.getD "") = (.ok (some u), t1) →
      passwordMatched (r2.password.getD "") u.password = false →
      (UsersController.loginUser svc s r).1
        = (UsersController.loginUser svc2 t r2).1) := by
  refine ⟨?_, ?_, ?_⟩
  · intro s1 hE hP hlook
    simp [UsersController.loginUser, hE, hP, hlook]
  · intro s1 u hE hP hlook hmatch
    simp [UsersController.loginUser, hE, hP, hlook, hmatch]
  · intro s1 t1 u hE hP hE2 hP2 hlook hlook2 hmatch
    simp [UsersController.loginUser, hE, hP, hE2, hP2, hlook, hlook2, hmatch]

/-- Witness for C2 at concrete inputs: a login against an empty store and a
login against a store holding the sample user but with the wrong password
end with the same error passed to next. -/
theorem C2_login_failures_indistinguishable_witness :
    truthy (some "ghost@b.c") = true
    ∧ passwordMatched "password2" sampleUser.password = false
    ∧ (UsersController.loginUser storeSvc [] ⟨some "ghost@b.c", some "whatever"⟩).1
      = (UsersController.loginUser storeSvc [sampleUser]
          ⟨some "a@b.c", some "password2"⟩).1 :=
  ⟨by decide, by decide,
    (C2_login_failures_indistinguishable storeSvc [] ⟨some "ghost@b.c", some "whatever"⟩
        storeSvc [sampleUser] ⟨some "a@b.c", some "password2"⟩).2.2
      [] [sampleUser] sampleUser
      (by decide) (by decide) (by decide) (by decide) (by decide) (by decide)
      (by decide)⟩

/-- C5: in an update of an existing user with truthy email and full name,
a new email that differs from the stored one and is already registered fails
with EMAIL_ALREADY_TAKEN, while a new email equal to the stored one skips the
uniqueness check entirely — no hypothesis about emailExists is needed — and
the update succeeds whenever persistence succeeds. -/
theorem C5_update_email_uniqueness {σ : Type} (svc : Svc σ) (s : σ)
    (id : String) (r : UpdateBody) :
    (∀ s1 u s2, svc.getUser s id = (.ok (some u), s1) →
      truthy r.email = true → truthy r.full_name = true →
      r.email.getD "" ≠ u.email →
      svc.emailExists s1 (r.email.getD "") = (.ok true, s2) →
      (UsersController.updateUser svc s id r).1
        = .nextCalled (.responder .EMAIL_ALREADY_TAKEN
            (some "Email already exists")))
    ∧ (∀ s1 u s2, svc.getUser s id = (.ok (some u), s1) →
      truthy r.email = true → truthy r.full_name = true →
      r.email.getD "" = u.email →
      svc.updateUser s1 id (r.email.getD "") (r.full_name.getD "")
        = (.ok true, s2) →
      UsersController.updateUser svc s id r
        = (.response 200 (.message "User updated successfully"), s2)) := by
  constructor
  · intro s1 u s2 hget hE hF hne hEx
    simp [UsersController.updateUser, hget, hE, hF, hne, hEx]
  · intro s1 u s2 hget hE hF heq hup
    rw [heq] at hup
    simp [UsersController.updateUser, UsersController.updateUserPersist,
      hget, hE, hF, heq, hup]

/-- Witness for C5 at a concrete input: updating the sample user to the email
already owned by the second sample user fails with EMAIL_ALREADY_TAKEN. -/
theorem C5_update_email_uniqueness_witness :
    storeSvc.getUser [sampleUser, sampleUser2] "user-0"
        = (.ok (some sampleUser), [sampleUser, sampleUser2])
    ∧ ("b@c.d" : String) ≠ sampleUser.email
    ∧ (UsersController.updateUser storeSvc [sampleUser, sampleUser2] "user-0"
        ⟨some "b@c.d", some "Alice"⟩).1
      = .nextCalled (.responder .EMAIL_ALREADY_TAKEN (some "Email already exists")) :=
  ⟨by decide, by decide,
    (C5_update_email_uniqueness storeSvc [sampleUser, sampleUser2] "user-0"
        ⟨some "b@c.d", some "Alice"⟩).1
      [sampleUser, sampleUser2] sampleUser [sampleUser, sampleUser2]
      (by decide) (by decide) (by decide) (by decide) (by decide)⟩

/-- Counterexample to C7 as stated: with a service whose lookup by email
fails with a storage error, a login request with both fields present makes
loginUser reject with that error — loginUser has no try/catch — so the error
does not reach next; rejecting and calling next are distinct outcomes even
for the identical error value. -/
theorem C7_counterexample :
    (UsersController.loginUser errSvc () ⟨some "a@b.c", some "password1"⟩).1
      = .rejected (.raw "StorageFailure")
    ∧ (CtrlResult.rejected (.raw "StorageFailure"))
        ≠ .nextCalled (.raw "StorageFailure") := by
  decide

/-- C7 amended: every unclassified service error raised inside getUsers,
getUser, createUser, updateUser and deleteUser is caught and passed through
unchanged to next; in loginUser, which has no try/catch, the service error
instead propagates unchanged out of the handler as a rejection, without next
being called. -/
theorem C7_unclassified_errors_propagate {σ : Type} (svc : Svc σ) (s : σ) :
    (∀ err s1 offsetQ limitQ,
      svc.getUsers s (jsOr offsetQ 0) (jsOr limitQ 10) = (.error err, s1) →
      (UsersController.getUsers svc s offsetQ limitQ).1 = .nextCalled err)
    ∧ (∀ err s1 id, svc.getUser s id = (.error err, s1) →
      (UsersController.getUser svc s id).1 = .nextCalled err)
    ∧ (∀ err s1 (r : CreateBody),
      truthy r.email = true → truthy r.full_name = true →
      svc.emailExists s (r.email.getD "") = (.error err, s1) →
      (UsersController.createUser svc s r).1 = .nextCalled err)
    ∧ (∀ err s1 s2 p (r : CreateBody),
      truthy r.email = true → truthy r.full_name = true →
      svc.emailExists s (r.email.getD "") = (.ok false, s1) →
      r.password = some p → ¬ p.length < 8 → r.confirm_password = some p →
      svc.createUser s1 (r.email.getD "") (hashPassword p) (r.full_name.getD "")
        = (.error err, s2) →
      (UsersController.createUser svc s r).1 = .nextCalled err)
    ∧ (∀ err s1 id (r : UpdateBody), svc.getUser s id = (.error err, s1) →
      (UsersController.updateUser svc s id r).1 = .nextCalled err)
    ∧ (∀ err s1 s2 id u (r : UpdateBody),
      svc.getUser s id = (.ok (some u), s1) →
      truthy r.email = true → truthy r.full_name = true →
      r.email.getD "" = u.email →
      svc.updateUser s1 id (r.email.getD "") (r.full_name.getD "")
        = (.error err, s2) →
      (UsersController.updateUser svc s id r).1 = .nextCalled err)
    ∧ (∀ err s1 s2 id u (r : UpdateBody),
      svc.getUser s id = (.ok (some u), s1) →
      truthy r.email = true → truthy r.full_name = true →
      r.email.getD "" ≠ u.email →
      svc.emailExists s1 (r.email.getD "") = (.error err, s2) →
      (UsersController.updateUser svc s id r).1 = .nextCalled err)
    ∧ (∀ err s1 s2 s3 id u (r : UpdateBody),
      svc.getUser s id = (.ok (some u), s1) →
      truthy r.email = true → truthy r.full_name = true →
      r.email.getD "" ≠ u.email →
      svc.emailExists s1 (r.email.getD "") = (.ok false, s2) →
      svc.updateUser s2 id (r.email.getD "") (r.full_name.getD "")
        = (.error err, s3) →
      (UsersController.updateUser svc s id r).1 = .nextCalled err)
    ∧ (∀ err s1 id, svc.deleteUser s id = (.error err, s1) →
      (UsersController.deleteUser svc s id).1 = .nextCalled err)
    ∧ (∀ err s1 (r : LoginBody),
      truthy r.email = true → truthy r.password = true →
      svc.getUserByEmail s (r.email.getD "") = (.error err, s1) →
      (UsersController.loginUser svc s r).1 = .rejected err) := by
  refine ⟨?_, ?_, ?_, ?_, ?_, ?_, ?_, ?_, ?_, ?_⟩
  · intro err s1 offsetQ limitQ h
    simp [UsersController.getUsers, h]
  · intro err s1 id h
    simp [UsersController.getUser, h]
  · intro err s1 r hE hF h
    simp [UsersController.createUser, hE, hF, h]
  · intro err s1 s2 p r hE hF hEx hP hlen hconf h
    simp [UsersController.createUser, hE, hF, hEx, hP, hlen, hconf, h]
  · intro err s1 id r h
    simp [UsersController.updateUser, h]
  · intro err s1 s2 id u r hget hE hF heq h
    rw [heq] at h
    simp [UsersController.updateUser, UsersController.updateUserPersist,
      hget, hE, hF, heq, h]
  · intro err s1 s2 id u r hget hE hF hne hEx
    simp [UsersController.updateUser, hget, hE, hF, hne, hEx]
  · intro err s1 s2 s3 id u r hget hE hF hne hEx hup
    simp [UsersController.updateUser, UsersController.updateUserPersist,
      hget, hE, hF, hne, hEx, hup]
  · intro err s1 id h
    simp [UsersController.deleteUser, h]
  · intro err s1 r hE hP h
    simp [UsersController.loginUser, hE, hP, h]

/-- Witness for the amended C7 at a concrete input: deleting through the
failing service hands the storage error itself to next. -/
theorem C7_unclassified_errors_propagate_witness :
    errSvc.deleteUser () "user-0" = (.error (.raw "StorageFailure"), ())
    ∧ (UsersController.deleteUser errSvc () "user-0").1
      = .nextCalled (.raw "StorageFailure") :=
  ⟨by decide,
    (C7_unclassified_errors_propagate errSvc ()).2.2.2.2.2.2.2.2.1
      (.raw "StorageFailure") () "user-0" (by decide)⟩

/-- C3: a registration with a previously-unused email, a password of length
at least 8 equal to its confirmation and a non-empty full name responds 201
with only a success message, and a login with the same email and password
against the resulting store responds 200: the stored hash verifies against
the original password. -/
theorem C3_register_then_login (db : List UserRecord) (e p fn : String)
    (he : e ≠ "") (hfn : fn ≠ "") (hp : 8 ≤ p.length)
    (hfree : db.find? (fun u => u.email == e) = none) :
    (UsersController.createUser storeSvc db
        ⟨some e, some p, some fn, some p⟩).1
      = .response 201 (.message "User created successfully")
    ∧ (UsersController.loginUser storeSvc
        (UsersController.createUser storeSvc db
          ⟨some e, some p, some fn, some p⟩).2
        ⟨some e, some p⟩).1
      = .response 200 (.message "Login successful") := by
  have hE : truthy (some e) = true := by simp [truthy, he]
  have hpne : p ≠ "" := by
    intro h
    rw [h] at hp
    simp at hp
  have hP : truthy (some p) = true := by simp [truthy, hpne]
  have hF : truthy (some fn) = true := by simp [truthy, hfn]
  have hlen : ¬ p.length < 8 := Nat.not_lt.mpr hp
  have hcreate :
      UsersController.createUser storeSvc db ⟨some e, some p, some fn, some p⟩
        = (.response 201 (.message "User created successfully"),
            db ++ [⟨freshUserId db, e, hashPassword p, fn⟩]) := by
    simp [UsersController.createUser, storeSvc, hE, hF, hfree, hlen]
  refine ⟨by rw [hcreate], ?_⟩
  rw [hcreate]
  simp [UsersController.loginUser, storeSvc, hE, hP, List.find?_append, hfree,
    passwordMatched]

/-- Witness for C3 at a concrete input: registering Carol against the empty
store responds 201, and logging in with her credentials afterwards responds
200. -/
theorem C3_register_then_login_witness :
    ("new@b.c" : String) ≠ "" ∧ 8 ≤ "password9".length
    ∧ (UsersController.createUser storeSvc []
        ⟨some "new@b.c", some "password9", some "Carol", some "password9"⟩).1
      = .response 201 (.message "User created successfully")
    ∧ (UsersController.loginUser storeSvc
        (UsersController.createUser storeSvc []
          ⟨some "new@b.c", some "password9", some "Carol", some "password9"⟩).2
        ⟨some "new@b.c", some "password9"⟩).1
      = .response 200 (.message "Login successful") :=
  ⟨by decide, by decide,
    (C3_register_then_login [] "new@b.c" "password9" "Carol"
      (by decide) (by decide) (by decide) rfl).1,
    (C3_register_then_login [] "new@b.c" "password9" "Carol"
      (by decide) (by decide) (by decide) rfl).2⟩

/-- Mapping a record rewrite that keeps id and stored password hash over the
store keeps the projection to pairs of id and password hash. -/
theorem map_proj_map_keep (db : List UserRecord) (f : UserRecord → UserRecord)
    (hf : ∀ u, (f u).id = u.id ∧ (f u).password = u.password) :
    (db.map f).map (fun u => (u.id, u.password))
      = db.map (fun u => (u.id, u.password)) := by
  induction db with
  | nil => rfl
  | cons a l ih => simp only [List.map_cons, ih, (hf a).1, (hf a).2]

/-- C9: an update, whatever its outcome, leaves the id and stored password
hash of every record in the store unchanged: the controller passes only id,
email and full name to persistence, and the persisted rewrite touches only
email and full name. -/
theorem C9_update_never_touches_password (db : List UserRecord) (id : String)
    (r : UpdateBody) :
    ((UsersController.updateUser storeSvc db id r).2).map
        (fun u => (u.id, u.password))
      = db.map (fun u => (u.id, u.password)) := by
  have keep : ∀ (s : List UserRecord) (i e fn : String),
      ((storeSvc.updateUser s i e fn).2).map (fun u => (u.id, u.password))
        = s.map (fun u => (u.id, u.password)) := by
    intro s i e fn
    simp only [storeSvc]
    cases h : (s.find? (fun u => u.id == i)).isSome with
    | false => rw [if_neg Bool.false_ne_true]
    | true =>
        rw [if_pos rfl]
        exact map_proj_map_keep s _
          (fun u => by cases hu : u.id == i <;> simp [hu])
  have key : ∀ (s : List UserRecord) (i e fn : String),
      ((UsersController.updateUserPersist storeSvc s i e fn).2).map
          (fun u => (u.id, u.password))
        = s.map (fun u => (u.id, u.password)) := by
    intro s i e fn
    have hs1 := keep s i e fn
    rcases hres : storeSvc.updateUser s i e fn with ⟨res, s1⟩
    rw [hres] at hs1
    simp only [UsersController.updateUserPersist, hres]
    cases res with
    | error err => exact hs1
    | ok b => cases b with
      | false => exact hs1
      | true => exact hs1
  have hget : storeSvc.getUser db id
      = (.ok (db.find? (fun u => u.id == id)), db) := rfl
  cases hfind : db.find? (fun u => u.id == id) with
  | none => simp [UsersController.updateUser, hget, hfind]
  | some user =>
      simp only [UsersController.updateUser, hget, hfind]
      split
      · rfl
      · split
        · rfl
        · split
          · rw [show storeSvc.emailExists db (r.email.getD "")
                  = (.ok (db.find? (fun u =>
                      u.email == r.email.getD "")).isSome, db) from rfl]
            cases hmail :
              (db.find? (fun u => u.email == r.email.getD "")).isSome with
            | true => rfl
            | false => exact key db id (r.email.getD "") (r.full_name.getD "")
          · exact key db id (r.email.getD "") (r.full_name.getD "")
